import Mathlib

/-!
Shallow embedding of the CP2130 USB-to-SPI/GPIO bridge driver
(`src/lib.rs`, `src/device.rs`): the command codec, the transfer engine,
endpoint resolution and GPIO pin allocation, together with theorems
checking the specification's claims against these definitions.

Physical USB I/O is modelled by an oracle (a function from a per-operation
call counter and the issued USB operation to the transport's response) and
each driver operation additionally returns the trace of USB operations it
issued, so that "performs no device I/O" and "issues exactly k transfers"
become statements about that trace.
-/

namespace Cp2130

/-- A USB transport-level error (`rusb::Error` / `libusb::Error`),
abstracted to an error code. -/
structure UsbErr where
  code : Nat
deriving DecidableEq, Repr

/-- `Error` enum from `src/lib.rs`. -/
inductive Error where
  | usb (e : UsbErr)
  | noLanguages
  | configurations
  | endpoint
  | gpioInUse
  | invalidIndex
  | invalidBaud
deriving DecidableEq, Repr

/-- A physical USB operation issued to the external USB stack, with the
endpoint address / control-request fields and the timeout in milliseconds. -/
inductive UsbOp where
  | writeBulk (addr : Nat) (data : List Nat) (timeoutMs : Nat)
  | readBulk (addr : Nat) (len : Nat) (timeoutMs : Nat)
  | readControl (requestType request value index : Nat) (len : Nat) (timeoutMs : Nat)
  | writeControl (requestType request value index : Nat) (data : List Nat) (timeoutMs : Nat)
deriving DecidableEq, Repr

/-- Transport oracle: the response of the external USB stack to the `k`-th
physical operation of a driver call.  For bulk operations the `Nat` result
is the byte count reported by the stack. -/
def Transport : Type := Nat → UsbOp → Except UsbErr Nat

/-- Control-read oracle for the 2-byte vendor control reads (`version`,
`get_gpio_values` fill a fixed 2-byte buffer): the pair is the filled
buffer `(buff[0], buff[1])`. -/
def CtrlRead : Type := UsbOp → Except UsbErr (Nat × Nat)

/-- Control-write oracle for vendor control writes. -/
def CtrlWrite : Type := UsbOp → Except UsbErr Unit

/-! ## Wire constants (`src/device.rs`) -/

/-- `RequestType` bit constants from the `bitflags!` block. -/
def RequestType.HOST_TO_DEVICE : Nat := 0x00
def RequestType.DEVICE_TO_HOST : Nat := 0x80
def RequestType.TYPE_VENDOR : Nat := 0x40

/-- `Commands` enum values (vendor control opcodes). -/
def Commands.GetGpioValues : Nat := 0x20
def Commands.SetGpioModeAndLevel : Nat := 0x23
def Commands.GetReadOnlyVersion : Nat := 0x11

/-- `TransferCommand` enum values (bulk opcodes). -/
def TransferCommand.Read : Nat := 0x00
def TransferCommand.Write : Nat := 0x01
def TransferCommand.WriteRead : Nat := 0x02
def TransferCommand.ReadWithRTR : Nat := 0x04

/-- `GpioMode` enum values. -/
def GpioMode.Input : Nat := 0x00
def GpioMode.OpenDrain : Nat := 0x01
def GpioMode.PushPull : Nat := 0x02

/-- `GpioLevel` enum values. -/
def GpioLevel.Low : Nat := 0x00
def GpioLevel.High : Nat := 0x01

/-! ## Command codec -/

/-- `LE::write_u32`: the four little-endian bytes of a `u32` value. -/
def writeU32LE (v : Nat) : List Nat :=
  [v % 256, v / 256 % 256, v / 2 ^ 16 % 256, v / 2 ^ 24 % 256]

/-- `LE::read_u32` over (at least) four bytes. -/
def readU32LE (bs : List Nat) : Nat :=
  bs.getD 0 0 + 256 * bs.getD 1 0 + 2 ^ 16 * bs.getD 2 0 + 2 ^ 24 * bs.getD 3 0

/-- `LE::read_u16` over a 2-byte buffer. -/
def readU16LE (b0 b1 : Nat) : Nat := b0 + 256 * b1

/-- `BE::read_u16` over a 2-byte buffer. -/
def readU16BE (b0 b1 : Nat) : Nat := 256 * b0 + b1

/-- The 8-byte bulk command header built by `spi_read`
(`cmd = [0u8; 8]; cmd[2] = Read; LE::write_u32(&mut cmd[4..], len as u32)`).
`% 2 ^ 32` models the `as u32` cast of the buffer length. -/
def spi_read_cmd (buffLen : Nat) : List Nat :=
  [0, 0, TransferCommand.Read, 0] ++ writeU32LE (buffLen % 2 ^ 32)

/-- The bulk command built by `spi_write`: 8-byte header (opcode `Write`,
little-endian payload length) followed by the payload. -/
def spi_write_cmd (buff : List Nat) : List Nat :=
  [0, 0, TransferCommand.Write, 0] ++ writeU32LE (buff.length % 2 ^ 32) ++ buff

/-- The bulk command built by `spi_write_read`: 8-byte header (opcode
`WriteRead`, little-endian length of the outgoing payload) followed by it. -/
def spi_write_read_cmd (buffOut : List Nat) : List Nat :=
  [0, 0, TransferCommand.WriteRead, 0] ++ writeU32LE (buffOut.length % 2 ^ 32) ++ buffOut

/-! ## Endpoints -/

/-- `Endpoint` struct: configuration, interface, alternate setting, address. -/
structure Endpoint where
  config : Nat
  iface : Nat
  setting : Nat
  address : Nat
deriving DecidableEq, Repr

/-- `Endpoints` struct: the three resolved endpoint roles. -/
structure Endpoints where
  control : Endpoint
  read : Endpoint
  write : Endpoint
deriving DecidableEq, Repr

/-! ## Transfer engine (`src/device.rs`) -/

/-- The `while index < buff.len()` chunked-read loop of `spi_read`,
with explicit fuel (the Rust loop has none: exhausted fuel, result `none`,
models a loop that has not terminated after `fuel` iterations).  `k` is the
transport call counter, `index` the accumulated byte count.  Each iteration
reads a chunk of `min 64 (total - index)` bytes from the write endpoint's
address and adds the returned byte count to `index`. -/
def spiReadLoop (wAddr : Nat) (tp : Transport) (total : Nat) :
    Nat → Nat → Nat → List UsbOp × Option (Except Error Nat)
  | 0, _, index => ([], if index < total then none else some (.ok index))
  | fuel + 1, k, index =>
    if index < total then
      let remainder := if total > index + 64 then 64 else total - index
      let rop := UsbOp.readBulk wAddr remainder 200
      match tp k rop with
      | .error e => ([rop], some (.error (.usb e)))
      | .ok n =>
        let rest := spiReadLoop wAddr tp total fuel (k + 1) (index + n)
        (rop :: rest.1, rest.2)
    else ([], some (.ok index))

/-- `Cp2130::spi_read`: bulk-write the 8-byte Read header (length = `buffLen`)
on the write endpoint, then chunk-read from the same (write) endpoint address
until `buffLen` bytes are accumulated.  Returns the trace of USB operations
and (`none` = loop still running after `fuel` chunks) the result. -/
def spi_read (eps : Endpoints) (tp : Transport) (fuel buffLen : Nat) :
    List UsbOp × Option (Except Error Nat) :=
  let wop := UsbOp.writeBulk eps.write.address (spi_read_cmd buffLen) 200
  match tp 0 wop with
  | .error e => ([wop], some (.error (.usb e)))
  | .ok _ =>
    let rest := spiReadLoop eps.write.address tp buffLen fuel 1 0
    (wop :: rest.1, rest.2)

/-- `Cp2130::spi_write`: one bulk write of header + payload. -/
def spi_write (eps : Endpoints) (tp : Transport) (buff : List Nat) :
    List UsbOp × Except Error Unit :=
  let wop := UsbOp.writeBulk eps.write.address (spi_write_cmd buff) 200
  match tp 0 wop with
  | .error e => ([wop], .error (.usb e))
  | .ok _ => ([wop], .ok ())

/-- `Cp2130::spi_write_read`: one bulk write of header + outgoing payload,
then exactly one bulk read of `buffInLen` bytes (no chunking loop), both on
the write endpoint's address; returns the single read's byte count. -/
def spi_write_read (eps : Endpoints) (tp : Transport) (buffOut : List Nat)
    (buffInLen : Nat) : List UsbOp × Except Error Nat :=
  let wop := UsbOp.writeBulk eps.write.address (spi_write_read_cmd buffOut) 200
  match tp 0 wop with
  | .error e => ([wop], .error (.usb e))
  | .ok _ =>
    let rop := UsbOp.readBulk eps.write.address buffInLen 200
    match tp 1 rop with
    | .error e => ([wop, rop], .error (.usb e))
    | .ok n => ([wop, rop], .ok n)

/-- `Cp2130::version`: one vendor control read
(`DEVICE_TO_HOST | TYPE_VENDOR`, opcode `GetReadOnlyVersion`, value 0,
index 0, 2-byte buffer, 200 ms), result decoded as little-endian `u16`. -/
def version (ctrl : CtrlRead) : List UsbOp × Except Error Nat :=
  let op := UsbOp.readControl
    (RequestType.DEVICE_TO_HOST ||| RequestType.TYPE_VENDOR)
    Commands.GetReadOnlyVersion 0 0 2 200
  match ctrl op with
  | .error e => ([op], .error (.usb e))
  | .ok (b0, b1) => ([op], .ok (readU16LE b0 b1))

/-! ## GPIO value decode (`src/device.rs`) -/

/-- `GpioLevels` bit masks from the `bitflags!` block: pins 0-4 at bits 3-7,
pins 5-10 at bits 8, 10, 11, 12, 13, 14 (a gap at bit 9). -/
def GpioLevels.GPIO_0 : Nat := 1 <<< 3
def GpioLevels.GPIO_1 : Nat := 1 <<< 4
def GpioLevels.GPIO_2 : Nat := 1 <<< 5
def GpioLevels.GPIO_3 : Nat := 1 <<< 6
def GpioLevels.GPIO_4 : Nat := 1 <<< 7
def GpioLevels.GPIO_5 : Nat := 1 <<< 8
def GpioLevels.GPIO_6 : Nat := 1 <<< 10
def GpioLevels.GPIO_7 : Nat := 1 <<< 11
def GpioLevels.GPIO_8 : Nat := 1 <<< 12
def GpioLevels.GPIO_9 : Nat := 1 <<< 13
def GpioLevels.GPIO_10 : Nat := 1 <<< 14

/-- The union of all defined `GpioLevels` bits. -/
def GpioLevels.allBits : Nat :=
  GpioLevels.GPIO_0 ||| GpioLevels.GPIO_1 ||| GpioLevels.GPIO_2 |||
  GpioLevels.GPIO_3 ||| GpioLevels.GPIO_4 ||| GpioLevels.GPIO_5 |||
  GpioLevels.GPIO_6 ||| GpioLevels.GPIO_7 ||| GpioLevels.GPIO_8 |||
  GpioLevels.GPIO_9 ||| GpioLevels.GPIO_10

/-- `bitflags` `from_bits_truncate`: keep only the defined bits. -/
def GpioLevels.fromBitsTruncate (v : Nat) : Nat := v &&& GpioLevels.allBits

/-- `bitflags` `contains` for a mask: all of the mask's bits are set. -/
def GpioLevels.contains (v mask : Nat) : Bool := v &&& mask == mask

/-- `Cp2130::get_gpio_values`: one vendor control read of 2 bytes
(opcode `GetGpioValues`), decoded big-endian ("Inexplicably big endian
here") and truncated to the defined `GpioLevels` bits. -/
def get_gpio_values (ctrl : CtrlRead) : List UsbOp × Except Error Nat :=
  let op := UsbOp.readControl
    (RequestType.DEVICE_TO_HOST ||| RequestType.TYPE_VENDOR)
    Commands.GetGpioValues 0 0 2 200
  match ctrl op with
  | .error e => ([op], .error (.usb e))
  | .ok (b0, b1) => ([op], .ok (GpioLevels.fromBitsTruncate (readU16BE b0 b1)))

/-- `Cp2130::get_gpio_level`: `assert!(pin <= 10)` (a failed assertion /
the `_ => panic!` match arm is modelled as `none`), then read the GPIO
vector and select the pin's flag via the per-pin `match`. -/
def get_gpio_level (ctrl : CtrlRead) (pin : Nat) :
    Option (List UsbOp × Except Error Bool) :=
  if pin ≤ 10 then
    match get_gpio_values ctrl with
    | (ops, .error e) => some (ops, .error e)
    | (ops, .ok levels) =>
      match pin with
      | 0 => some (ops, .ok (GpioLevels.contains levels GpioLevels.GPIO_0))
      | 1 => some (ops, .ok (GpioLevels.contains levels GpioLevels.GPIO_1))
      | 2 => some (ops, .ok (GpioLevels.contains levels GpioLevels.GPIO_2))
      | 3 => some (ops, .ok (GpioLevels.contains levels GpioLevels.GPIO_3))
      | 4 => some (ops, .ok (GpioLevels.contains levels GpioLevels.GPIO_4))
      | 5 => some (ops, .ok (GpioLevels.contains levels GpioLevels.GPIO_5))
      | 6 => some (ops, .ok (GpioLevels.contains levels GpioLevels.GPIO_6))
      | 7 => some (ops, .ok (GpioLevels.contains levels GpioLevels.GPIO_7))
      | 8 => some (ops, .ok (GpioLevels.contains levels GpioLevels.GPIO_8))
      | 9 => some (ops, .ok (GpioLevels.contains levels GpioLevels.GPIO_9))
      | 10 => some (ops, .ok (GpioLevels.contains levels GpioLevels.GPIO_10))
      | _ => none
  else none

/-- `Cp2130::set_gpio_mode_level`: `assert!(pin <= 10)` (failure modelled
as `none`), then one vendor control write of the 3-byte payload
`[pin, mode, level]` with opcode `SetGpioModeAndLevel`. -/
def set_gpio_mode_level (ctrl : CtrlWrite) (pin mode level : Nat) :
    Option (List UsbOp × Except Error Unit) :=
  if pin ≤ 10 then
    let op := UsbOp.writeControl
      (RequestType.HOST_TO_DEVICE ||| RequestType.TYPE_VENDOR)
      Commands.SetGpioModeAndLevel 0 0 [pin, mode, level] 200
    match ctrl op with
    | .error e => some ([op], .error (.usb e))
    | .ok _ => some ([op], .ok ())
  else none

/-! ## Endpoint resolution (`Cp2130::new`, `src/device.rs`) -/

/-- USB endpoint transfer type (`libusb::TransferType`). -/
inductive TransferType where
  | control
  | isochronous
  | bulk
  | interrupt
deriving DecidableEq, Repr

/-- USB endpoint direction (`libusb::Direction`). -/
inductive Direction where
  | dirIn
  | dirOut
deriving DecidableEq, Repr

/-- An endpoint descriptor as read from the configuration descriptor tree. -/
structure EndpointDescriptor where
  transferType : TransferType
  direction : Direction
  address : Nat
deriving DecidableEq, Repr

/-- An interface descriptor (one alternate setting) with its endpoints. -/
structure InterfaceDescriptor where
  interfaceNumber : Nat
  settingNumber : Nat
  endpointDescriptors : List EndpointDescriptor
deriving DecidableEq, Repr

/-- An interface: a list of interface descriptors (alternate settings). -/
structure Interface where
  descriptors : List InterfaceDescriptor
deriving DecidableEq, Repr

/-- A configuration descriptor: its number and its interfaces. -/
structure ConfigDescriptor where
  number : Nat
  interfaces : List Interface
deriving DecidableEq, Repr

/-- The mutable scan state `(control, write, read)` of the endpoint loop
in `Cp2130::new` (each starts as `None`). -/
structure ScanState where
  control : Option Endpoint
  write : Option Endpoint
  read : Option Endpoint
deriving DecidableEq, Repr

/-- One iteration of the endpoint classification `match` in `Cp2130::new`:
`(Control, _)` sets the control slot, `(Bulk, In)` the read slot,
`(Bulk, Out)` the write slot; anything else is skipped.  A later match
overwrites an earlier one. -/
def classifyEndpoint (cfg : ConfigDescriptor) (ifd : InterfaceDescriptor)
    (ed : EndpointDescriptor) (st : ScanState) : ScanState :=
  let e : Endpoint :=
    ⟨cfg.number, ifd.interfaceNumber, ifd.settingNumber, ed.address⟩
  match ed.transferType, ed.direction with
  | .control, _ => { st with control := some e }
  | .bulk, .dirIn => { st with read := some e }
  | .bulk, .dirOut => { st with write := some e }
  | _, _ => st

/-- The triple-nested `for` loop of `Cp2130::new` over
interfaces / interface descriptors / endpoint descriptors. -/
def scanEndpoints (cfg : ConfigDescriptor) : ScanState :=
  cfg.interfaces.foldl
    (fun st iface =>
      iface.descriptors.foldl
        (fun st ifd =>
          ifd.endpointDescriptors.foldl
            (fun st ed => classifyEndpoint cfg ifd ed st) st)
        st)
    ⟨none, none, none⟩

/-- Endpoint resolution in `Cp2130::new`: scan the tree, then discard any
scanned control endpoint and hard-code `Endpoint { config: 1, iface: 0,
setting: 0, address: 0 }`; fail with `Error::Endpoint` if the write or the
read slot is still `None` (write is checked first, as in the source). -/
def resolveEndpoints (cfg : ConfigDescriptor) : Except Error Endpoints :=
  let st := scanEndpoints cfg
  let control : Endpoint := ⟨1, 0, 0, 0⟩
  match st.write with
  | none => .error .endpoint
  | some w =>
    match st.read with
    | none => .error .endpoint
    | some r => .ok ⟨control, r, w⟩

/-! ## GPIO pin allocation (`src/lib.rs`) -/

/-- The session state protected by the `Mutex` that the claim operations
touch: the GPIO allocation table.
Modelled from the spec: the `Inner` struct holding `gpio_allocated` is
declared in a `device.rs` revision not present under `src/`; per the spec
it is "a fixed-size GPIO allocation table (one flag per pin, 11 pins,
index 0-10)", so `gpioAllocated` is a list of 11 flags. -/
structure Inner where
  gpioAllocated : List Bool
deriving DecidableEq, Repr

/-- An `OutputPin` handle (`src/lib.rs`): pin index and mode (the shared
session pointer is implicit in this embedding). -/
structure OutputPinHandle where
  index : Nat
  mode : Nat
deriving DecidableEq, Repr

/-- An `InputPin` handle (`src/lib.rs`): pin index. -/
structure InputPinHandle where
  index : Nat
deriving DecidableEq, Repr

/-- `Cp2130::gpio_out` (claim an output pin): under the session lock,
if `gpio_allocated[index]` is set return `Error::GpioInUse` (no device
I/O, state unchanged); otherwise run `set_gpio_mode_level`, then set the
flag and return the handle.  `none` models the panics: an out-of-bounds
table index or the assertion inside `set_gpio_mode_level`. -/
def gpio_out (ctrl : CtrlWrite) (st : Inner) (index mode level : Nat) :
    Option (Inner × List UsbOp × Except Error OutputPinHandle) :=
  if h : index < st.gpioAllocated.length then
    if st.gpioAllocated.get ⟨index, h⟩ then
      some (st, [], .error .gpioInUse)
    else
      match set_gpio_mode_level ctrl index mode level with
      | none => none
      | some (ops, .error e) => some (st, ops, .error e)
      | some (ops, .ok _) =>
        some (⟨st.gpioAllocated.set index true⟩, ops, .ok ⟨index, mode⟩)
  else none

/-- `Cp2130::gpio_in` (claim an input pin): same allocation check, then
`set_gpio_mode_level(index, GpioMode::Input, GpioLevel::Low)`. -/
def gpio_in (ctrl : CtrlWrite) (st : Inner) (index : Nat) :
    Option (Inner × List UsbOp × Except Error InputPinHandle) :=
  if h : index < st.gpioAllocated.length then
    if st.gpioAllocated.get ⟨index, h⟩ then
      some (st, [], .error .gpioInUse)
    else
      match set_gpio_mode_level ctrl index GpioMode.Input GpioLevel.Low with
      | none => none
      | some (ops, .error e) => some (st, ops, .error e)
      | some (ops, .ok _) =>
        some (⟨st.gpioAllocated.set index true⟩, ops, .ok ⟨index⟩)
  else none

/-! ## Concrete fixtures used by witnesses and concrete instances -/

/-- A transport whose bulk reads return the full requested chunk and whose
bulk writes report the full data length. -/
def fullChunkTransport : Transport := fun _ op =>
  match op with
  | .readBulk _ len _ => .ok len
  | .writeBulk _ data _ => .ok data.length
  | _ => .ok 0

/-- A control-write oracle that always succeeds. -/
def ctrlWriteOk : CtrlWrite := fun _ => .ok ()

/-- A control-read oracle that always returns the fixed 2-byte buffer
`(b0, b1)`. -/
def ctrlReadConst (b0 b1 : Nat) : CtrlRead := fun _ => .ok (b0, b1)

/-- A typical resolved endpoint set (bulk-in address `0x82`, bulk-out
address `0x02`). -/
def epsEx : Endpoints := ⟨⟨1, 0, 0, 0⟩, ⟨1, 0, 0, 0x82⟩, ⟨1, 0, 0, 0x02⟩⟩

/-- An allocation table with all 11 pins free. -/
def innerFree : Inner := ⟨List.replicate 11 false⟩

/-- An allocation table with pin 0 claimed and pins 1-10 free. -/
def innerPin0 : Inner := ⟨true :: List.replicate 10 false⟩

/-! ## Helper lemmas -/

/-- Little-endian `u32` round-trip for values below `2 ^ 32`. -/
theorem readU32LE_writeU32LE (v : Nat) (h : v < 2 ^ 32) :
    readU32LE (writeU32LE v) = v := by
  simp only [readU32LE, writeU32LE, List.getD_cons_zero, List.getD_cons_succ]
  omega

/-- `bitflags` `contains` of a single-bit mask is `Nat.testBit`. -/
theorem GpioLevels.contains_shift (v k : Nat) :
    GpioLevels.contains v (1 <<< k) = v.testBit k := by
  have h2 : (1 : Nat) <<< k = 2 ^ k := by
    simp [Nat.shiftLeft_eq]
  rw [GpioLevels.contains, h2, Nat.and_two_pow]
  cases h : v.testBit k <;> simp [h]
  exact fun hc => absurd hc.symm (Nat.pos_iff_ne_zero.mp (Nat.pos_pow_of_pos k (by norm_num)))

/-! ## Claim theorems -/

/-- C2: for every length `L` below `2 ^ 32`, the 8-byte bulk header built
for a Read has byte 2 equal to the Read opcode `0x00`, bytes 4..8 equal to
`L` little-endian (decoding them as a little-endian `u32` yields `L`), and
all remaining header bytes zero; the Write and WriteRead commands build the
same header shape with opcodes `0x01` and `0x02` and length equal to the
payload length, followed by the payload. -/
theorem bulk_header_roundtrip (L : Nat) (hL : L < 2 ^ 32)
    (out : List Nat) (hout : out.length < 2 ^ 32) :
    (spi_read_cmd L).length = 8 ∧
    (spi_read_cmd L).getD 2 0 = TransferCommand.Read ∧
    TransferCommand.Read = 0x00 ∧
    readU32LE ((spi_read_cmd L).drop 4) = L ∧
    (spi_read_cmd L).getD 0 0 = 0 ∧
    (spi_read_cmd L).getD 1 0 = 0 ∧
    (spi_read_cmd L).getD 2 0 = 0 ∧
    (spi_read_cmd L).getD 3 0 = 0 ∧
    (spi_write_cmd out).getD 2 0 = TransferCommand.Write ∧
    TransferCommand.Write = 0x01 ∧
    readU32LE ((spi_write_cmd out).drop 4) = out.length ∧
    (spi_write_cmd out).getD 0 0 = 0 ∧
    (spi_write_cmd out).getD 1 0 = 0 ∧
    (spi_write_cmd out).getD 3 0 = 0 ∧
    (spi_write_cmd out).drop 8 = out ∧
    (spi_write_read_cmd out).getD 2 0 = TransferCommand.WriteRead ∧
    TransferCommand.WriteRead = 0x02 ∧
    readU32LE ((spi_write_read_cmd out).drop 4) = out.length ∧
    (spi_write_read_cmd out).getD 0 0 = 0 ∧
    (spi_write_read_cmd out).getD 1 0 = 0 ∧
    (spi_write_read_cmd out).getD 3 0 = 0 ∧
    (spi_write_read_cmd out).drop 8 = out := by
  repeat' apply And.intro
  all_goals
    simp [spi_read_cmd, spi_write_cmd, spi_write_read_cmd, writeU32LE,
      readU32LE, TransferCommand.Read, TransferCommand.Write,
      TransferCommand.WriteRead]
  all_goals omega

/-- Witness for C2 at `L = 300`, payload `[7, 9]`. -/
theorem bulk_header_roundtrip_witness :
    300 < 2 ^ 32 ∧ ([7, 9] : List Nat).length < 2 ^ 32 ∧
    readU32LE ((spi_read_cmd 300).drop 4) = 300 ∧
    readU32LE ((spi_write_cmd [7, 9]).drop 4) = 2 :=
  ⟨by norm_num, by norm_num,
   (bulk_header_roundtrip 300 (by norm_num) [7, 9] (by norm_num)).2.2.2.1,
   (bulk_header_roundtrip 300 (by norm_num) [7, 9] (by norm_num)).2.2.2.2.2.2.2.2.2.2.1⟩

/-- C8: `version` issues exactly one vendor control read with request type
`DEVICE_TO_HOST | TYPE_VENDOR = 0xC0`, opcode `GetReadOnlyVersion = 0x11`,
value 0, index 0, a 2-byte buffer and a 200 ms timeout, and returns the two
response bytes decoded as a little-endian `u16`; a transfer error is
surfaced as `Error::Usb` with no retry (still a single-element trace). -/
theorem version_wire_format (ctrl : CtrlRead) :
    (RequestType.DEVICE_TO_HOST ||| RequestType.TYPE_VENDOR) = 0xC0 ∧
    Commands.GetReadOnlyVersion = 0x11 ∧
    (∀ b0 b1, ctrl (UsbOp.readControl 0xC0 0x11 0 0 2 200) = .ok (b0, b1) →
      version ctrl =
        ([UsbOp.readControl 0xC0 0x11 0 0 2 200], .ok (b0 + 256 * b1))) ∧
    (∀ e, ctrl (UsbOp.readControl 0xC0 0x11 0 0 2 200) = .error e →
      version ctrl =
        ([UsbOp.readControl 0xC0 0x11 0 0 2 200], .error (.usb e))) := by
  refine ⟨rfl, rfl, ?_, ?_⟩
  · intro b0 b1 h
    simp [version, RequestType.DEVICE_TO_HOST, RequestType.TYPE_VENDOR,
      Commands.GetReadOnlyVersion, h, readU16LE]
  · intro e h
    simp [version, RequestType.DEVICE_TO_HOST, RequestType.TYPE_VENDOR,
      Commands.GetReadOnlyVersion, h]

/-- Witness for C8 with a transport answering `(0x34, 0x12)`: the decoded
version is `0x1234`. -/
theorem version_wire_format_witness :
    ctrlReadConst 0x34 0x12 (UsbOp.readControl 0xC0 0x11 0 0 2 200) =
      .ok (0x34, 0x12) ∧
    version (ctrlReadConst 0x34 0x12) =
      ([UsbOp.readControl 0xC0 0x11 0 0 2 200], .ok 0x1234) :=
  ⟨rfl, (version_wire_format (ctrlReadConst 0x34 0x12)).2.2.1 0x34 0x12 rfl⟩

/-- C6: `spi_write_read` issues exactly two physical transfers: one bulk
write of the 8-byte WriteRead header (opcode `0x02`, little-endian length
of the outgoing payload) concatenated with the payload, then exactly one
bulk read of the incoming buffer's length (no chunking loop, regardless of
that length), returning the byte count of that single read; on every
transport outcome the trace contains at most one bulk read. -/
theorem spi_write_read_two_transfers (eps : Endpoints) (tp : Transport)
    (out : List Nat) (inLen : Nat) :
    (∀ m n, tp 0 (UsbOp.writeBulk eps.write.address (spi_write_read_cmd out) 200) = .ok m →
      tp 1 (UsbOp.readBulk eps.write.address inLen 200) = .ok n →
      spi_write_read eps tp out inLen =
        ([UsbOp.writeBulk eps.write.address (spi_write_read_cmd out) 200,
          UsbOp.readBulk eps.write.address inLen 200], .ok n)) ∧
    (spi_write_read eps tp out inLen).1.countP
      (fun op => match op with | .readBulk _ _ _ => true | _ => false) ≤ 1 ∧
    spi_write_read_cmd out =
      [0, 0, 0x02, 0] ++ writeU32LE (out.length % 2 ^ 32) ++ out := by
  refine ⟨?_, ?_, rfl⟩
  · intro m n hw hr
    simp [spi_write_read, hw, hr]
  · rcases hw : tp 0 (UsbOp.writeBulk eps.write.address (spi_write_read_cmd out) 200) with e | m
    · simp [spi_write_read, hw, List.countP, List.countP.go]
    · rcases hr : tp 1 (UsbOp.readBulk eps.write.address inLen 200) with e | n <;>
        simp [spi_write_read, hw, hr, List.countP, List.countP.go]

/-- Witness for C6: with the full-chunk transport, a WriteRead of payload
`[1, 2, 3]` expecting 100 incoming bytes issues the header+payload write and
one single 100-byte read. -/
theorem spi_write_read_two_transfers_witness :
    fullChunkTransport 0
        (UsbOp.writeBulk epsEx.write.address (spi_write_read_cmd [1, 2, 3]) 200) =
      .ok 11 ∧
    fullChunkTransport 1 (UsbOp.readBulk epsEx.write.address 100 200) = .ok 100 ∧
    spi_write_read epsEx fullChunkTransport [1, 2, 3] 100 =
      ([UsbOp.writeBulk 0x02 (spi_write_read_cmd [1, 2, 3]) 200,
        UsbOp.readBulk 0x02 100 200], .ok 100) :=
  ⟨rfl, rfl,
   (spi_write_read_two_transfers epsEx fullChunkTransport [1, 2, 3] 100).1 11 100 rfl rfl⟩

/-- The chip-defined bit position of GPIO pin `p` in the 16-bit vector:
pins 0-4 at bits 3-7, pins 5-10 at bits 8, 10, 11, 12, 13, 14. -/
def pinBit : Nat → Nat
  | 0 => 3
  | 1 => 4
  | 2 => 5
  | 3 => 6
  | 4 => 7
  | 5 => 8
  | 6 => 10
  | 7 => 11
  | 8 => 12
  | 9 => 13
  | 10 => 14
  | _ => 0

/-- For `pin ≤ 10` and a control read answering `(b0, b1)`,
`get_gpio_level` returns the trace of the single `GetGpioValues` control
read and the bit of the big-endian-decoded, mask-truncated vector at the
pin's chip-defined position. -/
theorem get_gpio_level_ok (ctrl : CtrlRead) (pin b0 b1 : Nat) (hp : pin ≤ 10)
    (h : ctrl (UsbOp.readControl 0xC0 0x20 0 0 2 200) = .ok (b0, b1)) :
    get_gpio_level ctrl pin =
      some ([UsbOp.readControl 0xC0 0x20 0 0 2 200],
        .ok ((GpioLevels.fromBitsTruncate (readU16BE b0 b1)).testBit (pinBit pin))) := by
  have hv : get_gpio_values ctrl =
      ([UsbOp.readControl 0xC0 0x20 0 0 2 200],
        .ok (GpioLevels.fromBitsTruncate (readU16BE b0 b1))) := by
    simp [get_gpio_values, RequestType.DEVICE_TO_HOST, RequestType.TYPE_VENDOR,
      Commands.GetGpioValues, h]
  interval_cases pin <;>
    simp [get_gpio_level, hv, pinBit] <;>
    exact GpioLevels.contains_shift _ _

/-- C3: the GPIO vector is decoded big-endian with the gapped bit layout:
`get_gpio_level p` returns exactly the bit at the pin's chip position
(pins 0-4 at bits `3 + p`, pins 5-10 at bits 8, 10..14, a gap at bit 9) of
the big-endian-decoded response; response bytes `(0x00, 0x08)` decode to
exactly pin 0 asserted and `(0x40, 0x00)` to exactly pin 10 asserted. -/
theorem gpio_vector_decode (ctrl : CtrlRead) (p : Nat) (hp : p ≤ 10) :
    (p ≤ 5 → pinBit p = 3 + p) ∧
    (6 ≤ p → pinBit p = 4 + p) ∧
    (∀ b0 b1, ctrl (UsbOp.readControl 0xC0 0x20 0 0 2 200) = .ok (b0, b1) →
      get_gpio_level ctrl p =
        some ([UsbOp.readControl 0xC0 0x20 0 0 2 200],
          .ok ((GpioLevels.fromBitsTruncate (readU16BE b0 b1)).testBit (pinBit p)))) ∧
    (ctrl (UsbOp.readControl 0xC0 0x20 0 0 2 200) = .ok (0x00, 0x08) →
      get_gpio_level ctrl p =
        some ([UsbOp.readControl 0xC0 0x20 0 0 2 200], .ok (decide (p = 0)))) ∧
    (ctrl (UsbOp.readControl 0xC0 0x20 0 0 2 200) = .ok (0x40, 0x00) →
      get_gpio_level ctrl p =
        some ([UsbOp.readControl 0xC0 0x20 0 0 2 200], .ok (decide (p = 10)))) := by
  refine ⟨?_, ?_, fun b0 b1 h => get_gpio_level_ok ctrl p b0 b1 hp h, ?_, ?_⟩
  · intro h6
    interval_cases p <;> rfl
  · intro h6
    interval_cases p <;> simp_all <;> rfl
  · intro h
    rw [get_gpio_level_ok ctrl p 0x00 0x08 hp h]
    have : GpioLevels.fromBitsTruncate (readU16BE 0x00 0x08) = 8 := by decide
    rw [this]
    interval_cases p <;> simp [pinBit] <;> decide
  · intro h
    rw [get_gpio_level_ok ctrl p 0x40 0x00 hp h]
    have : GpioLevels.fromBitsTruncate (readU16BE 0x40 0x00) = 0x4000 := by decide
    rw [this]
    interval_cases p <;> simp [pinBit] <;> decide

/-- Witness for C3 at pin 0 with response bytes `(0x00, 0x08)`. -/
theorem gpio_vector_decode_witness :
    ctrlReadConst 0x00 0x08 (UsbOp.readControl 0xC0 0x20 0 0 2 200) =
      .ok (0x00, 0x08) ∧
    get_gpio_level (ctrlReadConst 0x00 0x08) 0 =
      some ([UsbOp.readControl 0xC0 0x20 0 0 2 200], .ok true) :=
  ⟨rfl, (gpio_vector_decode (ctrlReadConst 0x00 0x08) 0 (by norm_num)).2.2.2.1 rfl⟩

/-- C7: out-of-range pin indexes fail fast: for `pin > 10` both
`set_gpio_mode_level` and `get_gpio_level` abort on the `assert!(pin <= 10)`
(modelled as `none`) instead of returning a typed error; for `pin ≤ 10`
both return a typed `Result` (`isSome`) — in particular the catch-all
`panic!` arm of `get_gpio_level`'s per-pin match is unreachable. -/
theorem pin_range_contract (ctrlW : CtrlWrite) (ctrlR : CtrlRead)
    (pin mode level : Nat) :
    (10 < pin →
      set_gpio_mode_level ctrlW pin mode level = none ∧
      get_gpio_level ctrlR pin = none) ∧
    (pin ≤ 10 →
      (set_gpio_mode_level ctrlW pin mode level).isSome ∧
      (get_gpio_level ctrlR pin).isSome) := by
  constructor
  · intro hgt
    have hn : ¬ pin ≤ 10 := Nat.not_le.mpr hgt
    exact ⟨by simp [set_gpio_mode_level, hn], by simp [get_gpio_level, hn]⟩
  · intro hle
    constructor
    · rcases hw : ctrlW (UsbOp.writeControl
          (RequestType.HOST_TO_DEVICE ||| RequestType.TYPE_VENDOR)
          Commands.SetGpioModeAndLevel 0 0 [pin, mode, level] 200) with e | u <;>
        simp [set_gpio_mode_level, hle, hw]
    · rcases hr : ctrlR (UsbOp.readControl
          (RequestType.DEVICE_TO_HOST ||| RequestType.TYPE_VENDOR)
          Commands.GetGpioValues 0 0 2 200) with e | ⟨b0, b1⟩ <;>
        · have hv := hr
          interval_cases pin <;>
            simp [get_gpio_level, get_gpio_values, hv]

/-- Witness for C7 at `pin = 12` (abort) and `pin = 7` (typed result). -/
theorem pin_range_contract_witness :
    (10 < 12 ∧
      set_gpio_mode_level ctrlWriteOk 12 2 1 = none ∧
      get_gpio_level (ctrlReadConst 0 0) 12 = none) ∧
    (7 ≤ 10 ∧
      (set_gpio_mode_level ctrlWriteOk 7 2 1).isSome ∧
      (get_gpio_level (ctrlReadConst 0 0) 7).isSome) :=
  ⟨⟨by norm_num,
    (pin_range_contract ctrlWriteOk (ctrlReadConst 0 0) 12 2 1).1 (by norm_num)⟩,
   ⟨by norm_num,
    (pin_range_contract ctrlWriteOk (ctrlReadConst 0 0) 7 2 1).2 (by norm_num)⟩⟩

/-- C1: claiming an already-claimed GPIO pin fails without device I/O:
for a pin `p ≤ 10` whose allocation flag is set, `gpio_out` and `gpio_in`
return `Error::GpioInUse` with an empty trace and an unchanged allocation
table; for an unclaimed pin (with a transport that accepts the control
write) they issue the single `SetGpioModeAndLevel` vendor command, set the
flag, and return the handle. -/
theorem gpio_claim_exclusive (ctrl : CtrlWrite) (st : Inner)
    (p mode level : Nat) (hp : p ≤ 10)
    (hlen : st.gpioAllocated.length = 11) :
    (st.gpioAllocated.getD p false = true →
      gpio_out ctrl st p mode level = some (st, [], .error .gpioInUse) ∧
      gpio_in ctrl st p = some (st, [], .error .gpioInUse)) ∧
    (st.gpioAllocated.getD p false = false → (∀ o, ctrl o = .ok ()) →
      gpio_out ctrl st p mode level =
        some (⟨st.gpioAllocated.set p true⟩,
          [UsbOp.writeControl 0x40 0x23 0 0 [p, mode, level] 200],
          .ok ⟨p, mode⟩) ∧
      gpio_in ctrl st p =
        some (⟨st.gpioAllocated.set p true⟩,
          [UsbOp.writeControl 0x40 0x23 0 0 [p, 0, 0] 200],
          .ok ⟨p⟩)) := by
  have hlt : p < st.gpioAllocated.length := by omega
  constructor
  · intro hset
    have hset2 : st.gpioAllocated[p] = true :=
      ((List.getD_eq_getElem _ _ hlt).symm.trans hset :)
    constructor <;> simp [gpio_out, gpio_in, hlt, hset2]
  · intro hfree hok
    have hfree2 : st.gpioAllocated[p] = false :=
      ((List.getD_eq_getElem _ _ hlt).symm.trans hfree :)
    have hcw : ctrl (UsbOp.writeControl 0x40 0x23 0 0 [p, mode, level] 200) =
        .ok () := hok _
    have hcw2 : ctrl (UsbOp.writeControl 0x40 0x23 0 0 [p, 0, 0] 200) =
        .ok () := hok _
    constructor <;>
      simp [gpio_out, gpio_in, hlt, hfree2, set_gpio_mode_level, hp,
        hcw, hcw2, RequestType.HOST_TO_DEVICE, RequestType.TYPE_VENDOR,
        Commands.SetGpioModeAndLevel, GpioMode.Input, GpioLevel.Low]

/-- Witness for C1: pin 0 already claimed in `innerPin0` (busy, no I/O);
pin 0 free in `innerFree` (command issued, flag set, handle returned). -/
theorem gpio_claim_exclusive_witness :
    (innerPin0.gpioAllocated.getD 0 false = true ∧
      gpio_out ctrlWriteOk innerPin0 0 2 1 =
        some (innerPin0, [], .error .gpioInUse)) ∧
    (innerFree.gpioAllocated.getD 0 false = false ∧
      gpio_out ctrlWriteOk innerFree 0 2 1 =
        some (⟨innerFree.gpioAllocated.set 0 true⟩,
          [UsbOp.writeControl 0x40 0x23 0 0 [0, 2, 1] 200], .ok ⟨0, 2⟩)) :=
  ⟨⟨rfl,
    ((gpio_claim_exclusive ctrlWriteOk innerPin0 0 2 1 (by norm_num)
      (by decide)).1 rfl).1⟩,
   ⟨rfl,
    ((gpio_claim_exclusive ctrlWriteOk innerFree 0 2 1 (by norm_num)
      (by decide)).2 rfl (fun _ => rfl)).1⟩⟩

/-- Once the accumulated index reaches the requested total, the read loop
exits immediately with `Ok(index)`, whatever fuel remains. -/
theorem spiReadLoop_done (wAddr : Nat) (tp : Transport) (total fuel k index : Nat)
    (h : total ≤ index) :
    spiReadLoop wAddr tp total fuel k index = ([], some (.ok index)) := by
  cases fuel <;> simp [spiReadLoop, Nat.not_lt.mpr h]

/-- C10: the `spi_read` accumulation loop terminates exactly when the bulk
read primitive never returns `Ok(0)`: if every successful read reports a
positive byte count, `total - index` more iterations always suffice (the
fuelled loop does not return the out-of-fuel marker `none`); with a
primitive that returns `Ok(0)` forever and a non-empty request, the loop
returns `none` at every fuel, i.e. it never terminates. -/
theorem spi_read_loop_termination :
    (∀ (wAddr : Nat) (tp : Transport) (total fuel k index : Nat),
      (∀ j op n, tp j op = .ok n → 0 < n) →
      total - index ≤ fuel →
      (spiReadLoop wAddr tp total fuel k index).2 ≠ none) ∧
    (∀ (wAddr total : Nat), 0 < total →
      ∀ fuel k index, index < total →
        (spiReadLoop wAddr (fun _ _ => .ok 0) total fuel k index).2 = none) := by
  constructor
  · intro wAddr tp total fuel
    induction fuel with
    | zero =>
      intro k index _ hfuel
      have : ¬ index < total := by omega
      simp [spiReadLoop, this]
    | succ f ih =>
      intro k index hpos hfuel
      by_cases hlt : index < total
      · rcases hr : tp k (UsbOp.readBulk wAddr
            (if total > index + 64 then 64 else total - index) 200) with e | n
        · simp [spiReadLoop, hlt, hr]
        · have hn : 0 < n := hpos _ _ _ hr
          have := ih (k + 1) (index + n) hpos (by omega)
          simp [spiReadLoop, hlt, hr, this]
      · simp [spiReadLoop, hlt]
  · intro wAddr total _ fuel
    induction fuel with
    | zero =>
      intro k index hlt
      simp [spiReadLoop, hlt]
    | succ f ih =>
      intro k index hlt
      simp [spiReadLoop, hlt, ih (k + 1) index hlt]

/-- Witness for C10: with full 64-byte chunks a 130-byte read finishes
within 130 iterations; with a transport stuck at `Ok(0)` the loop is still
running after 500 iterations. -/
theorem spi_read_loop_termination_witness :
    (spiReadLoop 2 (fun _ _ => .ok 64) 130 130 1 0).2 ≠ none ∧
    (spiReadLoop 2 (fun _ _ => .ok 0) 130 500 1 0).2 = none :=
  ⟨spi_read_loop_termination.1 2 (fun _ _ => .ok 64) 130 130 1 0
      (fun j op n h => by simp at h; omega)
      (by norm_num),
   spi_read_loop_termination.2 2 130 (by norm_num) 500 1 0 (by norm_num)⟩

/-- C4: chunked bulk read: every physical transfer issued by the
`spi_read` loop is a bulk read of at most 64 bytes from the same endpoint
address the 8-byte header (the header is 8 bytes for every length) was
written to; concretely, when each physical read returns the full requested
chunk, a read of 130 bytes issues the header write followed by exactly
`⌈130/64⌉ = 3` bulk reads, the last requesting exactly 2 bytes, and
returns 130. -/
theorem spi_read_chunking :
    (∀ (wAddr : Nat) (tp : Transport) (total fuel k index : Nat) (op : UsbOp),
      op ∈ (spiReadLoop wAddr tp total fuel k index).1 →
      ∃ r, op = UsbOp.readBulk wAddr r 200 ∧ r ≤ 64) ∧
    (∀ n, (spi_read_cmd n).length = 8) ∧
    spi_read epsEx fullChunkTransport 130 130 =
      ([UsbOp.writeBulk 0x02 (spi_read_cmd 130) 200,
        UsbOp.readBulk 0x02 64 200, UsbOp.readBulk 0x02 64 200,
        UsbOp.readBulk 0x02 2 200], some (.ok 130)) := by
  refine ⟨?_, fun n => by simp [spi_read_cmd, writeU32LE], ?_⟩
  · intro wAddr tp total fuel
    induction fuel with
    | zero =>
      intro k index op hmem
      simp [spiReadLoop] at hmem
    | succ f ih =>
      intro k index op hmem
      by_cases hlt : index < total
      · rcases hr : tp k (UsbOp.readBulk wAddr
            (if total > index + 64 then 64 else total - index) 200) with e | n
        · simp [spiReadLoop, hlt, hr] at hmem
          exact ⟨_, hmem, by split <;> omega⟩
        · simp [spiReadLoop, hlt, hr] at hmem
          rcases hmem with h | h
          · exact ⟨_, h, by split <;> omega⟩
          · exact ih (k + 1) (index + n) op h
      · simp [spiReadLoop, hlt] at hmem
  · rfl

/-- Witness for C4: the second transfer of the concrete 130-byte read is a
64-byte chunk read from the write endpoint's address. -/
theorem spi_read_chunking_witness :
    UsbOp.readBulk 2 64 200 ∈ (spiReadLoop 2 fullChunkTransport 130 130 1 0).1 ∧
    ∃ r, UsbOp.readBulk 2 64 200 = UsbOp.readBulk 2 r 200 ∧ r ≤ 64 :=
  ⟨by decide,
   spi_read_chunking.1 2 fullChunkTransport 130 130 1 0 (UsbOp.readBulk 2 64 200)
     (by decide)⟩

/-- The endpoint a scanned (interface descriptor, endpoint descriptor) pair
is turned into by the classification loop. -/
def toEndpoint (cfg : ConfigDescriptor)
    (pe : InterfaceDescriptor × EndpointDescriptor) : Endpoint :=
  ⟨cfg.number, pe.1.interfaceNumber, pe.1.settingNumber, pe.2.address⟩

/-- The `(Bulk, In)` classification predicate of the scan. -/
def isBulkIn (pe : InterfaceDescriptor × EndpointDescriptor) : Bool :=
  pe.2.transferType == .bulk && pe.2.direction == .dirIn

/-- The `(Bulk, Out)` classification predicate of the scan. -/
def isBulkOut (pe : InterfaceDescriptor × EndpointDescriptor) : Bool :=
  pe.2.transferType == .bulk && pe.2.direction == .dirOut

/-- The descriptor tree flattened in scan order to (interface descriptor,
endpoint descriptor) pairs. -/
def flatEndpoints (cfg : ConfigDescriptor) :
    List (InterfaceDescriptor × EndpointDescriptor) :=
  cfg.interfaces.flatMap fun i =>
    i.descriptors.flatMap fun d =>
      d.endpointDescriptors.map fun e => (d, e)

/-- The classification fold over an already-flattened pair list. -/
def scanList (cfg : ConfigDescriptor)
    (l : List (InterfaceDescriptor × EndpointDescriptor))
    (st : ScanState) : ScanState :=
  l.foldl (fun st pe => classifyEndpoint cfg pe.1 pe.2 st) st

/-- Folding over a `flatMap` is the nested fold. -/
theorem foldl_flatMap {α β γ : Type} (g : α → List β) (f : γ → β → γ)
    (l : List α) (init : γ) :
    (l.flatMap g).foldl f init =
      l.foldl (fun st a => (g a).foldl f st) init := by
  induction l generalizing init with
  | nil => rfl
  | cons a t ih => simp only [List.flatMap_cons, List.foldl_append, ih, List.foldl_cons]

/-- The triple-nested scan loop equals the fold over the flattened tree. -/
theorem scanEndpoints_eq_scanList (cfg : ConfigDescriptor) :
    scanEndpoints cfg = scanList cfg (flatEndpoints cfg) ⟨none, none, none⟩ := by
  rw [scanEndpoints, scanList, flatEndpoints]
  rw [foldl_flatMap]
  congr 1
  funext st i
  rw [foldl_flatMap]
  congr 1
  funext st d
  rw [List.foldl_map]

/-- One classification step's effect on the `read` slot. -/
theorem classifyEndpoint_read (cfg : ConfigDescriptor)
    (pe : InterfaceDescriptor × EndpointDescriptor) (st : ScanState) :
    (classifyEndpoint cfg pe.1 pe.2 st).read =
      if isBulkIn pe then some (toEndpoint cfg pe) else st.read := by
  rcases pe with ⟨d, e⟩
  rcases e with ⟨tt, dir, addr⟩
  cases tt <;> cases dir <;> simp [classifyEndpoint, isBulkIn, toEndpoint]

/-- One classification step's effect on the `write` slot. -/
theorem classifyEndpoint_write (cfg : ConfigDescriptor)
    (pe : InterfaceDescriptor × EndpointDescriptor) (st : ScanState) :
    (classifyEndpoint cfg pe.1 pe.2 st).write =
      if isBulkOut pe then some (toEndpoint cfg pe) else st.write := by
  rcases pe with ⟨d, e⟩
  rcases e with ⟨tt, dir, addr⟩
  cases tt <;> cases dir <;> simp [classifyEndpoint, isBulkOut, toEndpoint]

/-- The fold's `read` slot is the last `(Bulk, In)` match (the first match
of the reversed scan order), or the initial slot when there is none. -/
theorem scanList_read (cfg : ConfigDescriptor)
    (l : List (InterfaceDescriptor × EndpointDescriptor)) (st : ScanState) :
    (scanList cfg l st).read =
      match l.reverse.find? isBulkIn with
      | some pe => some (toEndpoint cfg pe)
      | none => st.read := by
  induction l generalizing st with
  | nil => rfl
  | cons pe t ih =>
    rw [show scanList cfg (pe :: t) st =
      scanList cfg t (classifyEndpoint cfg pe.1 pe.2 st) from rfl, ih]
    rw [show (pe :: t).reverse = t.reverse ++ [pe] from by simp]
    rw [List.find?_append]
    rcases hq : t.reverse.find? isBulkIn with _ | q
    · simp only [Option.or, List.find?]
      rcases hb : isBulkIn pe
      · simp [hb, classifyEndpoint_read, hq]
      · simp [hb, classifyEndpoint_read]
    · simp [Option.or]

/-- The fold's `write` slot is the last `(Bulk, Out)` match, or the initial
slot when there is none. -/
theorem scanList_write (cfg : ConfigDescriptor)
    (l : List (InterfaceDescriptor × EndpointDescriptor)) (st : ScanState) :
    (scanList cfg l st).write =
      match l.reverse.find? isBulkOut with
      | some pe => some (toEndpoint cfg pe)
      | none => st.write := by
  induction l generalizing st with
  | nil => rfl
  | cons pe t ih =>
    rw [show scanList cfg (pe :: t) st =
      scanList cfg t (classifyEndpoint cfg pe.1 pe.2 st) from rfl, ih]
    rw [show (pe :: t).reverse = t.reverse ++ [pe] from by simp]
    rw [List.find?_append]
    rcases hq : t.reverse.find? isBulkOut with _ | q
    · simp only [Option.or, List.find?]
      rcases hb : isBulkOut pe
      · simp [hb, classifyEndpoint_write, hq]
      · simp [hb, classifyEndpoint_write]
    · simp [Option.or]

/-- The scanned `read` slot over the whole tree. -/
theorem scan_read_eq (cfg : ConfigDescriptor) :
    (scanEndpoints cfg).read =
      ((flatEndpoints cfg).reverse.find? isBulkIn).map (toEndpoint cfg) := by
  rw [scanEndpoints_eq_scanList, scanList_read]
  rcases (flatEndpoints cfg).reverse.find? isBulkIn <;> rfl

/-- The scanned `write` slot over the whole tree. -/
theorem scan_write_eq (cfg : ConfigDescriptor) :
    (scanEndpoints cfg).write =
      ((flatEndpoints cfg).reverse.find? isBulkOut).map (toEndpoint cfg) := by
  rw [scanEndpoints_eq_scanList, scanList_write]
  rcases (flatEndpoints cfg).reverse.find? isBulkOut <;> rfl

/-- `any` over a list is `isSome` of `find?` over its reverse. -/
theorem any_iff_reverse_find {α : Type} (l : List α) (p : α → Bool) :
    l.any p = true ↔ (l.reverse.find? p).isSome := by
  rw [List.find?_isSome]
  simp [List.any_eq_true]

/-- A descriptor tree with a single interface exposing one `(Bulk, In)`
endpoint at `0x82` and one `(Bulk, Out)` endpoint at `0x02`, and no
Control endpoint. -/
def cfgEx : ConfigDescriptor :=
  ⟨1, [⟨[⟨0, 0, [⟨.bulk, .dirIn, 0x82⟩, ⟨.bulk, .dirOut, 0x02⟩]⟩]⟩]⟩

/-- A descriptor tree whose single interface has only a `(Bulk, In)`
endpoint — the `(Bulk, Out)` role cannot be resolved. -/
def cfgNoOut : ConfigDescriptor :=
  ⟨1, [⟨[⟨0, 0, [⟨.bulk, .dirIn, 0x82⟩]⟩]⟩]⟩

/-- C5: endpoint resolution classifies `Bulk+In` as the read role and
`Bulk+Out` as the write role with the last match winning; it succeeds
exactly when the flattened tree has both roles, fails with
`Error::Endpoint` otherwise, and on success the control endpoint is never
taken from the tree but hard-coded to configuration 1, interface 0,
alternate setting 0; a tree with one `Bulk/In` and one `Bulk/Out` endpoint
and no Control endpoint resolves successfully. -/
theorem endpoint_resolution (cfg : ConfigDescriptor) :
    ((∃ eps, resolveEndpoints cfg = .ok eps) ↔
      ((flatEndpoints cfg).any isBulkIn = true ∧
       (flatEndpoints cfg).any isBulkOut = true)) ∧
    (¬((flatEndpoints cfg).any isBulkIn = true ∧
       (flatEndpoints cfg).any isBulkOut = true) →
      resolveEndpoints cfg = .error .endpoint) ∧
    (∀ eps, resolveEndpoints cfg = .ok eps →
      eps.control = ⟨1, 0, 0, 0⟩ ∧
      ((flatEndpoints cfg).reverse.find? isBulkIn).map (toEndpoint cfg) =
        some eps.read ∧
      ((flatEndpoints cfg).reverse.find? isBulkOut).map (toEndpoint cfg) =
        some eps.write) ∧
    resolveEndpoints cfgEx =
      .ok ⟨⟨1, 0, 0, 0⟩, ⟨1, 0, 0, 0x82⟩, ⟨1, 0, 0, 0x02⟩⟩ := by
  have hr := scan_read_eq cfg
  have hw := scan_write_eq cfg
  have hIn := any_iff_reverse_find (flatEndpoints cfg) isBulkIn
  have hOut := any_iff_reverse_find (flatEndpoints cfg) isBulkOut
  rcases hfw : (flatEndpoints cfg).reverse.find? isBulkOut with _ | pw <;>
    rcases hfr : (flatEndpoints cfg).reverse.find? isBulkIn with _ | pr
  · have hres : resolveEndpoints cfg = .error .endpoint := by
      simp [resolveEndpoints, hw, hfw]
    refine ⟨⟨fun ⟨eps, h⟩ => by rw [hres] at h; exact Except.noConfusion h,
      fun ⟨hin, _⟩ => by rw [hIn, hfr] at hin; simp at hin⟩,
      fun _ => hres,
      fun eps h => by rw [hres] at h; exact Except.noConfusion h, rfl⟩
  · have hres : resolveEndpoints cfg = .error .endpoint := by
      simp [resolveEndpoints, hw, hfw]
    refine ⟨⟨fun ⟨eps, h⟩ => by rw [hres] at h; exact Except.noConfusion h,
      fun ⟨_, hout⟩ => by rw [hOut, hfw] at hout; simp at hout⟩,
      fun _ => hres,
      fun eps h => by rw [hres] at h; exact Except.noConfusion h, rfl⟩
  · have hres : resolveEndpoints cfg = .error .endpoint := by
      simp [resolveEndpoints, hw, hr, hfw, hfr]
    refine ⟨⟨fun ⟨eps, h⟩ => by rw [hres] at h; exact Except.noConfusion h,
      fun ⟨hin, _⟩ => by rw [hIn, hfr] at hin; simp at hin⟩,
      fun _ => hres,
      fun eps h => by rw [hres] at h; exact Except.noConfusion h, rfl⟩
  · have hres : resolveEndpoints cfg =
        .ok ⟨⟨1, 0, 0, 0⟩, toEndpoint cfg pr, toEndpoint cfg pw⟩ := by
      simp [resolveEndpoints, hw, hr, hfw, hfr]
    refine ⟨⟨fun _ => ⟨by rw [hIn, hfr]; rfl, by rw [hOut, hfw]; rfl⟩,
      fun _ => ⟨_, hres⟩⟩,
      fun hcon => absurd ⟨by rw [hIn, hfr]; rfl, by rw [hOut, hfw]; rfl⟩ hcon,
      ?_, rfl⟩
    intro eps h
    rw [hres] at h
    injection h with h
    subst h
    exact ⟨rfl, rfl, rfl⟩

/-- Witness for C5: on the concrete two-endpoint tree, resolution succeeds
with the hard-coded control endpoint and the discovered bulk endpoints;
on the tree missing the `Bulk/Out` endpoint it fails with
`Error::Endpoint`. -/
theorem endpoint_resolution_witness :
    ((⟨⟨1, 0, 0, 0⟩, ⟨1, 0, 0, 0x82⟩, ⟨1, 0, 0, 0x02⟩⟩ : Endpoints).control =
        ⟨1, 0, 0, 0⟩ ∧
      ((flatEndpoints cfgEx).reverse.find? isBulkIn).map (toEndpoint cfgEx) =
        some ⟨1, 0, 0, 0x82⟩ ∧
      ((flatEndpoints cfgEx).reverse.find? isBulkOut).map (toEndpoint cfgEx) =
        some ⟨1, 0, 0, 0x02⟩) ∧
    resolveEndpoints cfgNoOut = .error .endpoint :=
  ⟨(endpoint_resolution cfgEx).2.2.1 _ rfl,
   (endpoint_resolution cfgNoOut).2.1 (by decide)⟩

end Cp2130
